import Mathlib

/-!
A shallow embedding of the pact verification engine of this repository
(file `verifier.go`, package `pact`), together with theorems about its
behaviour.

The engine code in `verifier.go` is embedded directly: Go methods become
Lean functions on an explicit verifier record, the in-place update of the
fetched document's interaction list becomes explicit state passing, and
the sentinel `error` values become constructors of an error type.

External collaborators that `verifier.go` only calls through interfaces —
the pact readers and `IsWebUri` of package `io`, and the
`consumerValidator` of the provider package — are not among the sources
here; where a claim depends on their behaviour they are modelled from the
specification (each such definition carries a doc comment starting with
"Modelled from the spec:"), and otherwise they are abstracted as oracles
in an environment record, so that every theorem quantifies over all of
their possible outcomes.

To reason about ordering ("setup runs before the request is replayed",
"no network I/O is attempted") each operation additionally returns the
trace of observable events it performed.
-/

namespace Pact

/-- Error values. The four named constructors are the sentinel errors
declared in `verifier.go` (`errNoFilteredInteractionsFound`,
`errEmptyProvider`, `errEmptyConsumer`, `errVerficationFailed`); `other n`
stands for any other Go `error` value produced by an external collaborator
(a reader, the document validation, a state callback), which the engine
only passes along unchanged. -/
inductive Err where
  | noFilteredInteractionsFound
  | emptyProvider
  | emptyConsumer
  | verificationFailed
  | other (n : Nat)
deriving DecidableEq

/-- Result-level shallow embedding of Go `type Action func() error`: a
side-effecting callback is represented by the outcome of invoking it
(`none` = success, `some e` = the error it returned); its side effects on
the provider are tracked separately through the event trace. -/
abbrev Action := Option Err

/-- Go `type stateAction struct { setup, teardown Action }`. -/
structure StateAction where
  setup : Action
  teardown : Action
deriving DecidableEq

/-- The fields of `consumer.Interaction` that the verification engine
reads: the free-text description and the provider-state label. The
expected request and response payloads are opaque to the engine and enter
only through the transport and matcher oracles of `Env`. -/
structure Interaction where
  Description : String
  State : String
deriving DecidableEq

/-- The fields of `io.PactFile` that the verification engine reads:
the two party names and the ordered interaction list. -/
structure PactFile where
  Consumer : String
  Provider : String
  Interactions : List Interaction
deriving DecidableEq

/-- Go `PactUriConfig`: optional basic-auth credentials for a remote
pact source. -/
structure PactUriConfig where
  Username : String
  Password : String
deriving DecidableEq

/-- The state of Go `pactFileVerfier` (the spelling of the source is
kept): the registered state actions, the two party names, and the pact
source configuration. The Go map is embedded as a lookup function. -/
structure PactFileVerfier where
  stateActions : String → Option StateAction
  provider : String
  consumer : String
  pactUri : String
  pactUriConfig : PactUriConfig

/-- The reader chosen by `getPactFile`: either the remote web reader
(carrying the URI and the basic-auth credentials it was constructed with)
or the local file reader. -/
inductive PactReader where
  | webReader (uri username password : String)
  | fileReader (path : String)
deriving DecidableEq

/-- Observable events of a verification run: the single read performed by
the selected reader, the coordinator precondition check, and the
per-interaction callback / network steps. -/
inductive Event where
  | canValidateEv
  | readEv (r : PactReader)
  | setupEv (state : String)
  | replayEv (description : String)
  | matchEv (description : String)
  | teardownEv (state : String)
deriving DecidableEq

/-- Per-interaction outcome. -/
inductive Verdict where
  | passed
  | mismatched
  | transportFailed
  | setupFailed (e : Err)
  | teardownFailed
deriving DecidableEq

/-- Oracles for the external collaborators of the engine: the outcome of
reading through a given reader, of the document structural validation, of
the coordinator precondition check, and of replaying / matching a given
interaction against the provider. Quantifying over `Env` quantifies over
every possible behaviour of these collaborators. -/
structure Env where
  read : PactReader → Except Err PactFile
  validateDoc : PactFile → Option Err
  canValidate : Option Err
  transportOk : Interaction → Bool
  matchOk : Interaction → Bool

/-- Modelled from the spec: `io.IsWebUri` (package `io` of this
repository, not among the sources embedded here). Per the spec a remote
location is a scheme-qualified network address, so a web URI is one
carrying an explicit http or https scheme. -/
def IsWebUri (uri : String) : Bool :=
  uri.startsWith "http://" || uri.startsWith "https://"

/-- The reader selection performed by `getPactFile`: a web URI yields the
web reader constructed with the configured basic-auth credentials, any
other URI yields the local file reader for that path. -/
def selectReader (v : PactFileVerfier) : PactReader :=
  if IsWebUri v.pactUri then
    .webReader v.pactUri v.pactUriConfig.Username v.pactUriConfig.Password
  else
    .fileReader v.pactUri

/-- Function getPactFile: read the document through the selected reader, then run
the document structural validation `f.Validate()`; either failure is
returned unchanged. The first component is the event trace (the one read
attempt). -/
def getPactFile (env : Env) (v : PactFileVerfier) :
    List Event × Except Err PactFile :=
  let r := selectReader v
  match env.read r with
  | .error e => ([.readEv r], .error e)
  | .ok f =>
    match env.validateDoc f with
    | some e => ([.readEv r], .error e)
    | none => ([.readEv r], .ok f)

/-- Method ProviderState: register the setup and teardown callbacks under a
provider-state label; an empty label is ignored (empty-state validation
was sacrificed for chaining, per the source comment). -/
def ProviderState (v : PactFileVerfier) (state : String)
    (setup teardown : Action) : PactFileVerfier :=
  if state ≠ "" then
    { v with
        stateActions := fun s =>
          if s = state then some ⟨setup, teardown⟩ else v.stateActions s }
  else v

/-- The first filtering pass of `VerifyState`: when the description filter
is non-empty, replace the document's interaction list with the
interactions whose description equals it. -/
def filterByDescription (description : String) (f : PactFile) : PactFile :=
  if description ≠ "" then
    { f with
        Interactions :=
          f.Interactions.filter fun i => i.Description == description }
  else f

/-- The second filtering pass of `VerifyState`: when the state filter is
non-empty, replace the document's interaction list with the interactions
whose state label equals it. -/
def filterByState (state : String) (f : PactFile) : PactFile :=
  if state ≠ "" then
    { f with
        Interactions := f.Interactions.filter fun i => i.State == state }
  else f

/-- Both filtering passes of `VerifyState`, in source order: description
first, then state. The in-place Go assignment to `f.Interactions` is
embedded as state passing: this is the document as it stands after the
selection step. -/
def applyFilters (description state : String) (f : PactFile) : PactFile :=
  filterByState state (filterByDescription description f)

/-- Modelled from the spec: the per-interaction work of
`consumerValidator.Validate` (provider package of this repository, not
among the sources embedded here). When the interaction's provider-state
label has a registered action, setup runs first; if setup fails, the
request is not replayed, teardown is skipped and the setup failure is the
verdict; otherwise the request is replayed (a transport failure records
the interaction as failed without attempting a match), the response is
matched when the replay succeeded, and teardown runs last whenever setup
succeeded. An interaction without a registered action is replayed and
matched without setup or teardown. -/
def runInteraction (env : Env) (actions : String → Option StateAction)
    (i : Interaction) : List Event × Verdict :=
  let core : List Event × Verdict :=
    if env.transportOk i then
      ([.replayEv i.Description, .matchEv i.Description],
        if env.matchOk i then .passed else .mismatched)
    else
      ([.replayEv i.Description], .transportFailed)
  match actions i.State with
  | none => core
  | some a =>
    match a.setup with
    | some e => ([.setupEv i.State], .setupFailed e)
    | none =>
      (.setupEv i.State :: core.1 ++ [.teardownEv i.State],
        match core.2, a.teardown with
        | .passed, some _ => .teardownFailed
        | verd, _ => verd)

/-- Modelled from the spec: `consumerValidator.Validate` (provider package
of this repository, not among the sources embedded here). It iterates the
given document's interactions sequentially in order, collects every
verdict, and reports success exactly when no verdict failed;
interaction-level failures are captured and summarized rather than
returned as an error, so the error component is `none` once the loop
runs. -/
def Validate (env : Env) (f : PactFile)
    (actions : String → Option StateAction) :
    List Event × Bool × Option Err :=
  let results := f.Interactions.map (runInteraction env actions)
  ((results.map Prod.fst).flatten,
    results.all (fun r => decide (r.2 = Verdict.passed)),
    none)

/-- The selected interactions whose verdict failed. -/
def failingInteractions (env : Env) (actions : String → Option StateAction)
    (ints : List Interaction) : List Interaction :=
  ints.filter fun i => !(decide ((runInteraction env actions i).2 = Verdict.passed))

/-- Function verifyInternalState: empty consumer name, then empty provider name,
then the coordinator precondition check `validator.CanValidate()`. The
first component is the event trace (the precondition check only runs when
both names are non-empty). -/
def verifyInternalState (env : Env) (v : PactFileVerfier) :
    List Event × Option Err :=
  if v.consumer = "" then ([], some .emptyConsumer)
  else if v.provider = "" then ([], some .emptyProvider)
  else ([.canValidateEv], env.canValidate)

/-- Method VerifyState: check the internal state, fetch the pact file, filter
by description and state, fail when a non-empty filter selected nothing,
and otherwise hand the (possibly filtered) document to the validator; a
validator error is returned unchanged, and a clean validator run yields
`nil` exactly when it reported success, the generic verification-failed
error otherwise. The first component is the run's event trace. -/
def VerifyState (env : Env) (v : PactFileVerfier)
    (description state : String) : List Event × Option Err :=
  match verifyInternalState env v with
  | (t, some e) => (t, some e)
  | (t, none) =>
    match getPactFile env v with
    | (t2, .error e) => (t ++ t2, some e)
    | (t2, .ok f) =>
      let f2 := applyFilters description state f
      if (description != "" || state != "") && f2.Interactions.isEmpty then
        (t ++ t2, some .noFilteredInteractionsFound)
      else
        match Validate env f2 v.stateActions with
        | (t3, _, some e) => (t ++ t2 ++ t3, some e)
        | (t3, ok, none) =>
          (t ++ t2 ++ t3, if ok then none else some .verificationFailed)

/-- Method Verify: verify all the interactions, with no filters. -/
def Verify (env : Env) (v : PactFileVerfier) : List Event × Option Err :=
  VerifyState env v "" ""

/-! Concrete values used to witness the theorems below at explicit
inputs. -/

/-- A concrete interaction with a provider-state label. -/
def iW : Interaction := { Description := "d1", State := "s1" }

/-- A concrete interaction without a provider-state label. -/
def iW2 : Interaction := { Description := "d2", State := "" }

/-- A concrete two-interaction pact file. -/
def fW : PactFile := { Consumer := "c", Provider := "p", Interactions := [iW, iW2] }

/-- Concrete basic-auth credentials. -/
def cfgW : PactUriConfig := { Username := "u", Password := "pw" }

/-- A fully configured concrete verifier with a local pact URI and no
registered state actions. -/
def vW : PactFileVerfier :=
  { stateActions := fun _ => none
    provider := "prov"
    consumer := "cons"
    pactUri := "pacts/file.json"
    pactUriConfig := cfgW }

/-- The concrete verifier with its consumer name left unset. -/
def vNoConsumerW : PactFileVerfier := { vW with consumer := "" }

/-- The concrete verifier with its provider name left unset. -/
def vNoProviderW : PactFileVerfier := { vW with provider := "" }

/-- A concrete environment: reading always yields the two-interaction
file, document validation and the precondition check succeed, and every
interaction replays and matches cleanly. -/
def envW : Env :=
  { read := fun _ => .ok fW
    validateDoc := fun _ => none
    canValidate := none
    transportOk := fun _ => true
    matchOk := fun _ => true }

/-- The concrete environment with a failing reader. -/
def envReadFailW : Env := { envW with read := fun _ => .error (.other 7) }

/-- The concrete environment whose document validation rejects the file. -/
def envDocFailW : Env := { envW with validateDoc := fun _ => some (.other 9) }

/-- The concrete environment where the first interaction mismatches. -/
def envMismatchW : Env := { envW with matchOk := fun i => i.Description != "d1" }

/-- A concrete state-action registry with a pair of succeeding callbacks
under label "s1". -/
def actW : String → Option StateAction :=
  fun s => if s = "s1" then some ⟨none, none⟩ else none

/-! Helper lemmas shared by the claim theorems. -/

theorem filterByDescription_sublist (description : String) (f : PactFile) :
    (filterByDescription description f).Interactions.Sublist f.Interactions := by
  unfold filterByDescription
  split
  · exact List.filter_sublist _
  · exact List.Sublist.refl _

theorem filterByState_sublist (state : String) (f : PactFile) :
    (filterByState state f).Interactions.Sublist f.Interactions := by
  unfold filterByState
  split
  · exact List.filter_sublist _
  · exact List.Sublist.refl _

theorem filterByDescription_consumer (description : String) (f : PactFile) :
    (filterByDescription description f).Consumer = f.Consumer := by
  unfold filterByDescription; split <;> rfl

theorem filterByDescription_provider (description : String) (f : PactFile) :
    (filterByDescription description f).Provider = f.Provider := by
  unfold filterByDescription; split <;> rfl

theorem filterByState_consumer (state : String) (f : PactFile) :
    (filterByState state f).Consumer = f.Consumer := by
  unfold filterByState; split <;> rfl

theorem filterByState_provider (state : String) (f : PactFile) :
    (filterByState state f).Provider = f.Provider := by
  unfold filterByState; split <;> rfl

theorem applyFilters_empty (f : PactFile) : applyFilters "" "" f = f := by
  simp [applyFilters, filterByDescription, filterByState]

/-- The validator never returns an error once its loop runs: it captures
interaction-level failures in the verdicts instead. -/
theorem validate_eta (env : Env) (f : PactFile)
    (actions : String → Option StateAction) :
    Validate env f actions =
      ((Validate env f actions).1, (Validate env f actions).2.1, none) := rfl

theorem canValidateEv_not_in_runInteraction (env : Env)
    (actions : String → Option StateAction) (i : Interaction) :
    Event.canValidateEv ∉ (runInteraction env actions i).1 := by
  unfold runInteraction
  cases h : actions i.State with
  | none => cases ht : env.transportOk i <;> simp [ht]
  | some a =>
    cases hs : a.setup with
    | some e => simp [hs]
    | none => cases ht : env.transportOk i <;> simp [hs, ht]

theorem canValidateEv_not_in_validate (env : Env) (f : PactFile)
    (actions : String → Option StateAction) :
    Event.canValidateEv ∉ (Validate env f actions).1 := by
  intro hmem
  unfold Validate at hmem
  simp only [List.mem_flatten, List.mem_map] at hmem
  obtain ⟨l, ⟨r, ⟨i, hi, hri⟩, hrl⟩, hl⟩ := hmem
  subst hri hrl
  exact canValidateEv_not_in_runInteraction env actions i hl

/-- Evaluation of VerifyState after a clean precondition check and a clean fetch:
either the non-empty-filter guard fires, or the filtered document is
handed to the validator. -/
theorem verifyState_after_fetch (env : Env) (v : PactFileVerfier)
    (description state : String) (f : PactFile)
    (hc : v.consumer ≠ "") (hp : v.provider ≠ "") (hcv : env.canValidate = none)
    (hr : env.read (selectReader v) = .ok f) (hd : env.validateDoc f = none) :
    VerifyState env v description state =
      if (description != "" || state != "") &&
          (applyFilters description state f).Interactions.isEmpty then
        ([.canValidateEv, .readEv (selectReader v)],
          some .noFilteredInteractionsFound)
      else
        ([.canValidateEv, .readEv (selectReader v)] ++
            (Validate env (applyFilters description state f) v.stateActions).1,
          if (Validate env (applyFilters description state f) v.stateActions).2.1
          then none else some .verificationFailed) := by
  have hvi : verifyInternalState env v = ([.canValidateEv], none) := by
    simp [verifyInternalState, hc, hp, hcv]
  have hgp : getPactFile env v = ([.readEv (selectReader v)], .ok f) := by
    simp [getPactFile, hr, hd]
  rcases hres : Validate env (applyFilters description state f) v.stateActions
    with ⟨t3, ok3, e3⟩
  have he3 : e3 = none := by
    have h0 : (Validate env (applyFilters description state f)
        v.stateActions).2.2 = none := rfl
    rw [hres] at h0
    exact h0
  subst he3
  rw [VerifyState, hvi, hgp]
  simp [hres]

/-- C1: for every document and every pair of filters, the selection
performed by VerifyState (the description pass followed by the state
pass) keeps exactly the interactions whose description matches a
non-empty description filter and whose state matches a non-empty state
filter, in their original document order: the two sequential passes equal
a single conjunctive filter over the original interaction list. -/
theorem selection_is_conjunctive_filter (description state : String)
    (f : PactFile) :
    (applyFilters description state f).Interactions =
      f.Interactions.filter
        (fun i => (description == "" || i.Description == description) &&
                  (state == "" || i.State == state)) := by
  by_cases hd : description = "" <;> by_cases hs : state = ""
  · subst hd; subst hs
    simp [applyFilters, filterByDescription, filterByState]
  · subst hd
    have hs2 : (state == "") = false := by simpa using hs
    simp [applyFilters, filterByDescription, filterByState, hs, hs2]
  · subst hs
    have hd2 : (description == "") = false := by simpa using hd
    simp [applyFilters, filterByDescription, filterByState, hd, hd2]
  · have hs2 : (state == "") = false := by simpa using hs
    have hd2 : (description == "") = false := by simpa using hd
    simp only [applyFilters, filterByDescription, filterByState, hd, hs,
      hd2, hs2, Bool.false_or, ne_eq, not_false_iff, if_true,
      List.filter_filter]
    exact List.filter_congr fun x _ => Bool.and_comm ..

/-- C8: registering a provider state with an empty label leaves the
verifier (and in particular its state-action map) unchanged; a non-empty
label is mapped to exactly the given setup/teardown pair, overwriting any
previous registration, while every other label's entry is untouched. -/
theorem providerState_registration (v : PactFileVerfier) (state : String)
    (setup teardown : Action) :
    (state = "" → ProviderState v state setup teardown = v) ∧
    (state ≠ "" →
      (ProviderState v state setup teardown).stateActions state =
          some ⟨setup, teardown⟩ ∧
      ∀ l, l ≠ state →
        (ProviderState v state setup teardown).stateActions l =
          v.stateActions l) := by
  refine ⟨fun h => by simp [ProviderState, h], fun h => ⟨?_, fun l hl => ?_⟩⟩
  · simp [ProviderState, h]
  · simp [ProviderState, h, hl]

/-- C8 witness: registering under "s1" on the concrete verifier stores
exactly the given pair. -/
theorem providerState_registration_witness :
    (ProviderState vW "s1" none none).stateActions "s1" =
      some ⟨none, none⟩ :=
  ((providerState_registration vW "s1" none none).2 (by decide)).1

/-- C9 counterexample: on the concrete two-interaction file, selecting by
description "d1" leaves the document (as it stands after the selection
step, i.e. after the Go assignment to f.Interactions) with an interaction
sequence different from the original one — the fetched document is
updated in place rather than left unchanged. -/
theorem selection_changes_document_counterexample :
    ¬((applyFilters "d1" "" fW).Interactions = fW.Interactions) := by decide

/-- C9 (amended): filtering builds a new list of surviving interactions —
a subsequence of the original list, so no interaction element is modified
and the original order is kept — and leaves every other field of the
document unchanged; but this filtered list is assigned to the fetched
document's Interactions field, so the document's interaction sequence
after selection is the filtered one, not the original one. -/
theorem selection_builds_sublist_preserving_rest (description state : String)
    (f : PactFile) :
    (applyFilters description state f).Interactions.Sublist f.Interactions ∧
    (applyFilters description state f).Consumer = f.Consumer ∧
    (applyFilters description state f).Provider = f.Provider := by
  refine ⟨?_, ?_, ?_⟩
  · exact (filterByState_sublist state _).trans
      (filterByDescription_sublist description f)
  · rw [applyFilters, filterByState_consumer, filterByDescription_consumer]
  · rw [applyFilters, filterByState_provider, filterByDescription_provider]

/-- Success of the modelled validator is exactly the absence of failing
verdicts among the document's interactions. -/
theorem validate_ok_iff_no_failing (env : Env) (f : PactFile)
    (actions : String → Option StateAction) :
    (Validate env f actions).2.1 = true ↔
      failingInteractions env actions f.Interactions = [] := by
  simp [Validate, failingInteractions, List.all_eq_true,
    List.filter_eq_nil_iff]

/-- C2: after a clean precondition check and fetch, when at least one
filter is non-empty and the filtered interaction set is empty,
VerifyState returns the no-matching-interactions error with a trace
showing the validator was never invoked; when both filters are empty the
full (unfiltered) document — even an empty one — is handed to the
validator and the result is the validator's. -/
theorem empty_selection_error_and_unfiltered_pass (env : Env)
    (v : PactFileVerfier) (description state : String) (f : PactFile)
    (hc : v.consumer ≠ "") (hp : v.provider ≠ "") (hcv : env.canValidate = none)
    (hr : env.read (selectReader v) = .ok f) (hd : env.validateDoc f = none) :
    (((description ≠ "" ∨ state ≠ "") ∧
        (applyFilters description state f).Interactions = []) →
      VerifyState env v description state =
        ([.canValidateEv, .readEv (selectReader v)],
          some .noFilteredInteractionsFound)) ∧
    (description = "" → state = "" →
      VerifyState env v description state =
        ([.canValidateEv, .readEv (selectReader v)] ++
            (Validate env f v.stateActions).1,
          if (Validate env f v.stateActions).2.1 then none
          else some .verificationFailed)) := by
  have hbase := verifyState_after_fetch env v description state f hc hp hcv hr hd
  constructor
  · rintro ⟨hOr, hEmpty⟩
    have hcond : ((description != "" || state != "") &&
        (applyFilters description state f).Interactions.isEmpty) = true := by
      rcases hOr with h | h <;> simp [h, hEmpty]
    rw [hbase, if_pos hcond]
  · rintro rfl rfl
    rw [hbase]
    simp [applyFilters_empty]

/-- C2 witness: a description filter matching nothing on the concrete
two-interaction file yields the no-matching-interactions error. -/
theorem empty_selection_error_witness :
    VerifyState envW vW "zzz" "" =
      ([.canValidateEv, .readEv (selectReader vW)],
        some .noFilteredInteractionsFound) :=
  (empty_selection_error_and_unfiltered_pass envW vW "zzz" "" fW (by decide)
      (by decide) rfl rfl rfl).1 ⟨Or.inl (by decide), by decide⟩

/-- C3: an empty consumer name fails with the empty-consumer error, a
non-empty consumer name with an empty provider name fails with the
empty-provider error — in both cases with an empty trace, so before any
pact fetch or other I/O — and when both names are non-empty the
coordinator precondition check is the first event of the run and occurs
exactly once (in particular before every interaction event). -/
theorem precondition_checks_run_first (env : Env) (v : PactFileVerfier)
    (description state : String) :
    (v.consumer = "" →
      VerifyState env v description state = ([], some .emptyConsumer)) ∧
    (v.consumer ≠ "" → v.provider = "" →
      VerifyState env v description state = ([], some .emptyProvider)) ∧
    (v.consumer ≠ "" → v.provider ≠ "" →
      (VerifyState env v description state).1.head? = some .canValidateEv ∧
      Event.canValidateEv ∉ (VerifyState env v description state).1.tail) := by
  refine ⟨fun h => ?_, fun hc hp => ?_, fun hc hp => ?_⟩
  · rw [VerifyState]; simp [verifyInternalState, h]
  · rw [VerifyState]; simp [verifyInternalState, hc, hp]
  · cases hcv : env.canValidate with
    | some e =>
      have hvi : verifyInternalState env v = ([.canValidateEv], some e) := by
        simp [verifyInternalState, hc, hp, hcv]
      rw [VerifyState, hvi]; simp
    | none =>
      have hvi : verifyInternalState env v = ([.canValidateEv], none) := by
        simp [verifyInternalState, hc, hp, hcv]
      cases hread : env.read (selectReader v) with
      | error e =>
        have hgp : getPactFile env v =
            ([.readEv (selectReader v)], .error e) := by
          simp [getPactFile, hread]
        rw [VerifyState, hvi, hgp]; simp
      | ok f =>
        cases hdoc : env.validateDoc f with
        | some e =>
          have hgp : getPactFile env v =
              ([.readEv (selectReader v)], .error e) := by
            simp [getPactFile, hread, hdoc]
          rw [VerifyState, hvi, hgp]; simp
        | none =>
          have hbase := verifyState_after_fetch env v description state f hc hp
            hcv hread hdoc
          rw [hbase]
          by_cases hcond : ((description != "" || state != "") &&
              (applyFilters description state f).Interactions.isEmpty) = true
          · rw [if_pos hcond]; simp
          · rw [if_neg hcond]
            refine ⟨by simp, ?_⟩
            simp only [List.cons_append, List.nil_append, List.tail_cons]
            intro hmem
            rcases List.mem_cons.mp hmem with h | h
            · simp at h
            · exact canValidateEv_not_in_validate env _ v.stateActions h

/-- C3 witness: the concrete verifier whose consumer name is unset fails
with the empty-consumer error and an empty trace. -/
theorem precondition_checks_run_first_witness :
    VerifyState envW vNoConsumerW "" "" = ([], some .emptyConsumer) :=
  (precondition_checks_run_first envW vNoConsumerW "" "").1 rfl

/-- C4: once a run reaches the per-interaction loop, it returns nil
exactly when the validator found no failing verdict among the selected
interactions, and when some interaction failed the returned error is the
generic verification-failed error. -/
theorem result_iff_zero_failing_verdicts (env : Env) (v : PactFileVerfier)
    (description state : String) (f : PactFile)
    (hc : v.consumer ≠ "") (hp : v.provider ≠ "") (hcv : env.canValidate = none)
    (hr : env.read (selectReader v) = .ok f) (hd : env.validateDoc f = none)
    (hne : ¬((description ≠ "" ∨ state ≠ "") ∧
        (applyFilters description state f).Interactions = [])) :
    ((VerifyState env v description state).2 = none ↔
      failingInteractions env v.stateActions
        (applyFilters description state f).Interactions = []) ∧
    (failingInteractions env v.stateActions
        (applyFilters description state f).Interactions ≠ [] →
      (VerifyState env v description state).2 = some .verificationFailed) := by
  have hbase := verifyState_after_fetch env v description state f hc hp hcv hr hd
  have hcond : ((description != "" || state != "") &&
      (applyFilters description state f).Interactions.isEmpty) = false := by
    rcases Bool.eq_false_or_eq_true ((description != "" || state != "") &&
        (applyFilters description state f).Interactions.isEmpty) with h | h
    · exfalso
      rw [Bool.and_eq_true, Bool.or_eq_true] at h
      obtain ⟨h1, h2⟩ := h
      refine hne ⟨?_, by simpa using h2⟩
      rcases h1 with h | h
      · exact Or.inl (by simpa using h)
      · exact Or.inr (by simpa using h)
    · exact h
  rw [hbase, if_neg (by simp [hcond])]
  have hiff := validate_ok_iff_no_failing env
    (applyFilters description state f) v.stateActions
  constructor
  · cases hok : (Validate env (applyFilters description state f)
        v.stateActions).2.1 with
    | true => simp [hok, hiff.mp hok]
    | false =>
      have hfail : failingInteractions env v.stateActions
          (applyFilters description state f).Interactions ≠ [] := by
        intro hnil
        rw [hiff.mpr hnil] at hok
        exact absurd hok (by decide)
      simp [hok, hfail]
  · intro hfail
    have hok : (Validate env (applyFilters description state f)
        v.stateActions).2.1 = false := by
      cases hok2 : (Validate env (applyFilters description state f)
          v.stateActions).2.1 with
      | false => rfl
      | true => exact absurd (hiff.mp hok2) hfail
    simp [hok]

/-- C4 witness: with a mismatching first interaction on the concrete
file, the unfiltered run fails with the generic verification-failed
error. -/
theorem result_iff_zero_failing_verdicts_witness :
    (VerifyState envMismatchW vW "" "").2 = some .verificationFailed :=
  (result_iff_zero_failing_verdicts envMismatchW vW "" "" fW (by decide)
      (by decide) rfl rfl rfl (by decide)).2 (by decide)

/-- C5: after a clean precondition check, a read failure or a document
validation failure is returned verbatim as the run's result, with a trace
containing only the precondition check and the single read attempt — the
filter, the empty-filter check and the per-interaction verification are
never reached. -/
theorem fetch_failure_aborts_run (env : Env) (v : PactFileVerfier)
    (description state : String)
    (hc : v.consumer ≠ "") (hp : v.provider ≠ "")
    (hcv : env.canValidate = none) :
    (∀ e, env.read (selectReader v) = .error e →
      VerifyState env v description state =
        ([.canValidateEv, .readEv (selectReader v)], some e)) ∧
    (∀ f e, env.read (selectReader v) = .ok f → env.validateDoc f = some e →
      VerifyState env v description state =
        ([.canValidateEv, .readEv (selectReader v)], some e)) := by
  have hvi : verifyInternalState env v = ([.canValidateEv], none) := by
    simp [verifyInternalState, hc, hp, hcv]
  constructor
  · intro e hread
    have hgp : getPactFile env v = ([.readEv (selectReader v)], .error e) := by
      simp [getPactFile, hread]
    rw [VerifyState, hvi, hgp]; simp
  · intro f e hread hdoc
    have hgp : getPactFile env v = ([.readEv (selectReader v)], .error e) := by
      simp [getPactFile, hread, hdoc]
    rw [VerifyState, hvi, hgp]; simp

/-- C5 witness: the failing concrete reader's error is returned verbatim
after the one read attempt. -/
theorem fetch_failure_aborts_run_witness :
    VerifyState envReadFailW vW "" "" =
      ([.canValidateEv, .readEv (selectReader vW)], some (.other 7)) :=
  (fetch_failure_aborts_run envReadFailW vW "" "" (by decide) (by decide)
      rfl).1 (.other 7) rfl

/-- C6: the reader is selected by the shape of the URI — a web URI yields
the web reader constructed with the configured basic-auth username and
password, any other URI the local file reader — and a document is only
returned by getPactFile when it was read by the selected reader and
passed the structural validation. -/
theorem reader_dispatch_and_validated_read (env : Env) (v : PactFileVerfier) :
    (IsWebUri v.pactUri = true →
      selectReader v = .webReader v.pactUri v.pactUriConfig.Username
        v.pactUriConfig.Password) ∧
    (IsWebUri v.pactUri = false → selectReader v = .fileReader v.pactUri) ∧
    (∀ f, (getPactFile env v).2 = .ok f →
      env.read (selectReader v) = .ok f ∧ env.validateDoc f = none) := by
  refine ⟨fun h => by rw [selectReader, if_pos h],
    fun h => by rw [selectReader]; simp [h], fun f hf => ?_⟩
  cases hread : env.read (selectReader v) with
  | error e =>
    have hgp : (getPactFile env v).2 = .error e := by
      simp [getPactFile, hread]
    rw [hgp] at hf
    simp at hf
  | ok g =>
    cases hdoc : env.validateDoc g with
    | some e =>
      have hgp : (getPactFile env v).2 = .error e := by
        simp [getPactFile, hread, hdoc]
      rw [hgp] at hf
      simp at hf
    | none =>
      have hgp : (getPactFile env v).2 = .ok g := by
        simp [getPactFile, hread, hdoc]
      rw [hgp] at hf
      have hgf : g = f := by simpa using hf
      subst hgf
      exact ⟨rfl, hdoc⟩

/-- C6 witness: on the concrete local-path verifier, the document
returned by getPactFile was read by the selected reader and passed
validation. -/
theorem reader_dispatch_witness :
    envW.read (selectReader vW) = .ok fW ∧ envW.validateDoc fW = none :=
  (reader_dispatch_and_validated_read envW vW).2.2 fW rfl

/-- C7: for an interaction whose provider-state label has a registered
action, when setup succeeds the trace starts with the setup, ends with
exactly one teardown, and the request replay (and any response match)
happens strictly in between — so teardown runs exactly once whenever
setup succeeded, even when matching fails; when setup fails, the trace is
the lone setup invocation (no replay, no teardown) and the setup failure
is the interaction's verdict. -/
theorem state_action_setup_teardown_ordering (env : Env)
    (actions : String → Option StateAction) (i : Interaction)
    (a : StateAction) (ha : actions i.State = some a) :
    (a.setup = none →
      ∃ mid,
        (runInteraction env actions i).1 =
            .setupEv i.State :: mid ++ [.teardownEv i.State] ∧
          Event.teardownEv i.State ∉ mid ∧
          Event.setupEv i.State ∉ mid ∧
          Event.replayEv i.Description ∈ mid) ∧
    (∀ e, a.setup = some e →
      (runInteraction env actions i).1 = [.setupEv i.State] ∧
      (runInteraction env actions i).2 = .setupFailed e) := by
  constructor
  · intro hsetup
    cases ht : env.transportOk i with
    | false =>
      exact ⟨[.replayEv i.Description],
        by simp [runInteraction, ha, hsetup, ht]⟩
    | true =>
      exact ⟨[.replayEv i.Description, .matchEv i.Description],
        by simp [runInteraction, ha, hsetup, ht]⟩
  · intro e hsetup
    constructor <;> simp [runInteraction, ha, hsetup]

/-- C7 witness: on the concrete registered action with succeeding setup,
the trace is setup, then the replay and match, then one teardown. -/
theorem state_action_ordering_witness :
    ∃ mid,
      (runInteraction envW actW iW).1 =
          .setupEv iW.State :: mid ++ [.teardownEv iW.State] ∧
        Event.teardownEv iW.State ∉ mid ∧
        Event.setupEv iW.State ∉ mid ∧
        Event.replayEv iW.Description ∈ mid :=
  (state_action_setup_teardown_ordering envW actW iW ⟨none, none⟩
      (by decide)).1 rfl

/-- C10: Verify is exactly the unfiltered run VerifyState "" "" — the two
calls agree on every environment and verifier state — and the empty
filters select all interactions (the selection step is the identity). -/
theorem verify_is_unfiltered_verifyState (env : Env) (v : PactFileVerfier) :
    Verify env v = VerifyState env v "" "" ∧
      ∀ f : PactFile, applyFilters "" "" f = f :=
  ⟨rfl, applyFilters_empty⟩

end Pact
